import Mathlib

/-!
Verification of the user-account service (culturelist).

The Rust source is shallowly embedded:
* `sqlx` queries become pure functions over an explicit database state
  (a `List UserRecord`), threaded through the storage functions;
* the `argon2` password-hashing library (external to the repository) is
  modelled as an idealized KDF: the operating-system RNG salt becomes an
  explicit `salt` argument, and the PHC string `$argon2id$v=19$<salt>$<digest>`
  is modelled as a character list whose digest determines the password
  (a collision-free idealization of the real digest);
* `u32` arithmetic is `Nat` with explicit reduction modulo `2 ^ 32`
  (release-build wrapping semantics);
* fallible calls return `Except`/`Option`;
* character classes (`is_uppercase`, `to_lowercase`, ...) are modelled on
  the ASCII range of the corresponding Unicode predicates.
-/

namespace Culturelist

/-- One character of Rust's `str::to_lowercase`, restricted to the ASCII range:
uppercase basic-latin letters are shifted by 32, all other characters kept. -/
def lowercaseChar (c : Char) : Char :=
  if 65 ≤ c.toNat ∧ c.toNat ≤ 90 then Char.ofNat (c.toNat + 32) else c

/-- Rust `str::to_lowercase`, applied characterwise. -/
def toLowercase (s : String) : String :=
  ⟨s.data.map lowercaseChar⟩

/-- The fixed head of an argon2id PHC string, `$argon2id$v=19$`. -/
def phcHead : List Char := "$argon2id$v=19$".data

/-- Strip a literal head from a character list; `none` when it does not start
with that head.  Used by the model of `PasswordHash::new`. -/
def stripHead : List Char → List Char → Option (List Char)
  | [], s => some s
  | _ :: _, [] => none
  | p :: ps, c :: cs => if c = p then stripHead ps cs else none

/-- Split a character list at the first `'$'`, returning the part before it
(the salt field) and the part after it (the digest field). -/
def splitSalt : List Char → Option (List Char × List Char)
  | [] => none
  | c :: cs =>
    if c = '$' then some ([], cs)
    else
      match splitSalt cs with
      | none => none
      | some (a, b) => some (c :: a, b)

/-- Model of `argon2::password_hash::PasswordHash::new`: a stored string parses
as a PHC string when it starts with the argon2id head and carries a
`$`-separated salt and digest; parsing returns the salt and digest fields. -/
def parsePhc (s : List Char) : Option (List Char × List Char) :=
  match stripHead phcHead s with
  | none => none
  | some rest => splitSalt rest

/-- `hash_password` from `storage/users_storage.rs`: hash a password with a
freshly generated random salt to a PHC string.  The `OsRng`-generated salt is
an explicit argument; the digest of the idealized KDF is the byte content of
the password itself, which makes the digest function trivially collision-free
(the property the real argon2 digest has for all practical purposes). -/
def hash_password (salt : List Char) (password : String) : List Char :=
  phcHead ++ salt ++ '$' :: password.data

/-- `verify_password` from `storage/users_storage.rs`: parse the stored PHC
string (a parse failure is an `Err`, modelled as `Except.error`), then check
the candidate password against the parsed digest; a mismatch is `Ok(false)`,
never an error. -/
def verify_password (password_hash : List Char) (password : String) :
    Except Unit Bool :=
  match parsePhc password_hash with
  | none => Except.error ()
  | some (_, digest) => Except.ok (decide (password.data = digest))

/-- A row of the `users` table.  `created_at` is a server-assigned timestamp,
`id` models the generated UUID, `password` is the stored password column. -/
structure UserRecord where
  id : Nat
  username : String
  email : String
  password : List Char
  first_name : Option String
  last_name : Option String
  bio : Option String
  created_at : Nat
deriving DecidableEq, Repr

/-- `CreateUser` from `models/user.rs`. -/
structure CreateUser where
  username : String
  email : String
  password : String
  first_name : Option String
  last_name : Option String
  bio : Option String
deriving DecidableEq, Repr

/-- `UpdateUser` from `models/user.rs`: every field optional. -/
structure UpdateUser where
  username : Option String
  email : Option String
  password : Option String
  first_name : Option String
  last_name : Option String
  bio : Option String
deriving DecidableEq, Repr

/-- `UserSearch` from `models/user.rs` (`limit`/`offset` are `i64`). -/
structure UserSearch where
  search : Option String
  limit : Option Int
  offset : Option Int
deriving DecidableEq, Repr

/-- `UserListResponse` from `models/user.rs`. -/
structure UserListResponse where
  users : List UserRecord
  total_count : Int
  limit : Int
  offset : Int
deriving DecidableEq, Repr

/-- `SignInRequest` from `models/user.rs`. -/
structure SignInRequest where
  email : String
  password : String
deriving DecidableEq, Repr

/-- `UsersServiceError` from `services/users_service.rs`. -/
inductive UsersServiceError where
  | NotFound
  | WrongCredentials (msg : String)
  | DatabaseError (msg : String)
  | VerificationError (msg : String)
deriving DecidableEq, Repr

/-- Display text carried by the `sqlx::Error::WorkerCrashed` value that
`verify_user` uses as its error (abbreviated; the claims only depend on the
error constructor, never on this text). -/
def workerCrashedMsg : String := "WorkerCrashed"

namespace UsersStorage

/-- `UsersStorage::create`.  The generated row id and the `OsRng` salt for
`hash_password` are explicit arguments; the insert itself
(`queries/users/create.sql`, not under `src/`) is modelled from the spec:
append the returned row to the table.  The lowercasing of the email and the
hashing of the password are taken from the Rust source. -/
def create (db : List UserRecord) (newId : Nat) (ts : Nat) (salt : List Char)
    (data : CreateUser) : UserRecord × List UserRecord :=
  let row : UserRecord :=
    { id := newId
      username := data.username
      email := toLowercase data.email
      password := hash_password salt data.password
      first_name := data.first_name
      last_name := data.last_name
      bio := data.bio
      created_at := ts }
  (row, db ++ [row])

/-- `UsersStorage::get_by_email`.  The lowercasing of the argument is from
the Rust source; the query body (`queries/users/get_by_email.sql`, not under
`src/`) is modelled from the spec: look up by exact match on the stored
(case-folded) email column. -/
def get_by_email (db : List UserRecord) (email : String) : Option UserRecord :=
  db.find? (fun r => r.email == toLowercase email)

/-- `UsersStorage::get_by_id`; the query (`queries/users/get_by_id.sql`) is
modelled from the spec as lookup by id. -/
def get_by_id (db : List UserRecord) (id : Nat) : Option UserRecord :=
  db.find? (fun r => r.id == id)

/-- `UsersStorage::verify_user`: `SELECT password FROM users WHERE email = $1`
with the lowercased email, then
`password_hash.and_then(|hash| verify_password(hash, password).ok()).ok_or(WorkerCrashed)`:
both a missing row and a `verify_password` error collapse to an `Err`. -/
def verify_user (db : List UserRecord) (email password : String) :
    Except Unit Bool :=
  match (db.find? (fun r => r.email == toLowercase email)).map
      (fun r => r.password) with
  | none => Except.error ()
  | some h =>
    match verify_password h password with
    | Except.error _ => Except.error ()
    | Except.ok b => Except.ok b

/-- The row produced by `queries/users/update.sql` (not under `src/`),
modelled from the spec as a partial update: each `some` field replaces the
stored column, each `none` keeps it.  The bound values are from the Rust
source: the email is lowercased, and the password is bound as the
caller-supplied string itself (`data.password`), NOT hashed. -/
def applyUpdate (r : UserRecord) (d : UpdateUser) : UserRecord :=
  { r with
    username := d.username.getD r.username
    email := (d.email.map toLowercase).getD r.email
    password := (d.password.map String.data).getD r.password
    first_name := d.first_name.or r.first_name
    last_name := d.last_name.or r.last_name
    bio := d.bio.or r.bio }

/-- `UsersStorage::update`: update the row with the given id, returning the
updated row (`fetch_optional`: `none` when no row matched) and the new table
state. -/
def update (db : List UserRecord) (id : Nat) (d : UpdateUser) :
    Option UserRecord × List UserRecord :=
  match db.find? (fun r => r.id == id) with
  | none => (none, db)
  | some r =>
    let r2 := applyUpdate r d
    (some r2, db.map (fun x => if x.id = id then r2 else x))

end UsersStorage

/-- The punctuation set accepted by `validate_password` in `models/user.rs`
(`!@#$%^&*()_+-=[]\x7b\x7d|;:,.<>?`). -/
def specialChars : List Char := "!@#$%^&*()_+-=[]\x7b\x7d|;:,.<>?".data

/-- The rule-violation messages collected by `validate_password` in
`models/user.rs`, in source order: each of the four character-class checks
appends its message when no character of that class occurs. -/
def passwordViolations (password : String) : List String :=
  (if password.data.any (fun c => c.isUpper) then []
   else ["uppercase letter required"]) ++
  (if password.data.any (fun c => c.isLower) then []
   else ["lowercase letter required"]) ++
  (if password.data.any (fun c => c.isDigit) then []
   else ["digit required"]) ++
  (if password.data.any (fun c => specialChars.contains c) then []
   else ["special character required"])

/-- `validate_password` from `models/user.rs`: ok when no rule is violated,
otherwise an error whose message joins every violated rule with `", "`. -/
def validate_password (password : String) : Except String Unit :=
  let errors := passwordViolations password
  if errors.isEmpty then Except.ok ()
  else
    Except.error
      ("Password requirements not met: " ++ String.intercalate ", " errors)

/-- The combined password-field validation of `CreateUser` /`SignUpRequest`
(the derived `validate`): the `length(min = 8, max = 64)` rule (the validator
crate counts characters) and the custom `validate_password` rule are both
checked, and all collected errors must be absent. -/
def CreateUser.password_field_ok (password : String) : Bool :=
  decide (8 ≤ password.length) && decide (password.length ≤ 64) &&
    (passwordViolations password).isEmpty

/-- The password policy as the spec words it: length 8–64 and at least one
uppercase letter, one lowercase letter, one digit and one character from the
fixed punctuation set. -/
def passwordPolicySpec (p : String) : Prop :=
  8 ≤ p.length ∧ p.length ≤ 64 ∧
  (∃ c ∈ p.data, c.isUpper = true) ∧
  (∃ c ∈ p.data, c.isLower = true) ∧
  (∃ c ∈ p.data, c.isDigit = true) ∧
  (∃ c ∈ p.data, c ∈ specialChars)

namespace UsersService

/-- `u32::MAX + 1`: the modulus of Rust `u32` arithmetic. -/
def u32Size : Nat := 2 ^ 32

/-- The `UserSearch` filter built by `UsersService::list` for a non-zero page:
`limit = per_page as i64` and `offset = ((page - 1) * per_page) as i64`, the
multiplication performed in `u32` (wrapping in release builds, hence the
reduction modulo `2 ^ 32`) before widening to `i64`. -/
def listFilter (page per_page : Nat) (search_query : Option String) :
    UserSearch :=
  { search := search_query
    limit := some (Int.ofNat per_page)
    offset := some (Int.ofNat (((page - 1) * per_page) % u32Size)) }

/-- `UsersService::list`.  The storage call `list_users` (whose SQL lives
outside `src/`) is an explicit function argument, so the service is a pure
function of what the storage returns for the single filter it is called
with. -/
def list (storageList : UserSearch → Except String UserListResponse)
    (page per_page : Nat) (search_query : Option String) :
    Except UsersServiceError UserListResponse :=
  if page = 0 then
    Except.error
      (UsersServiceError.WrongCredentials "Page must be greater than zero")
  else
    match storageList (listFilter page per_page search_query) with
    | Except.error e => Except.error (UsersServiceError.DatabaseError e)
    | Except.ok result =>
      if result.users.isEmpty then Except.error UsersServiceError.NotFound
      else Except.ok result

/-- `UsersService::sign_in`.  The validator crate's email syntax check is an
explicit argument `emailOk` (its regex is external to the repository); when it
fails, the `From<ValidationErrors>` conversion produces
`WrongCredentials("")` (the email rule carries no message, so the joined
message list is empty).  JWT minting is modelled as always succeeding and the
response is the signed-in user. -/
def sign_in (emailOk : String → Bool) (db : List UserRecord)
    (credentials : SignInRequest) : Except UsersServiceError UserRecord :=
  if emailOk credentials.email then
    match UsersStorage.get_by_email db credentials.email with
    | none =>
      Except.error
        (UsersServiceError.WrongCredentials "Invalid email or password")
    | some user =>
      match UsersStorage.verify_user db credentials.email
          credentials.password with
      | Except.error _ =>
        Except.error (UsersServiceError.VerificationError workerCrashedMsg)
      | Except.ok is_valid =>
        if is_valid then Except.ok user
        else
          Except.error
            (UsersServiceError.WrongCredentials "Invalid email or password")
  else Except.error (UsersServiceError.WrongCredentials "")

/-- `UsersService::get_by_id` (the UUID of the path segment is modelled as the
already-parsed numeric id): a missing row is `NotFound`. -/
def get_by_id (db : List UserRecord) (id : Nat) :
    Except UsersServiceError UserRecord :=
  match UsersStorage.get_by_id db id with
  | none => Except.error UsersServiceError.NotFound
  | some u => Except.ok u

/-- `UsersService::update`, returning the response together with the table
state after the call (so that "the stored user was not modified" is
statable).  When the update data carries a new password, a missing
`old_password` is an error before any write, and a supplied one must verify
against the current stored hash before `storage.update` runs. -/
def update (db : List UserRecord) (user_id : Nat) (data : UpdateUser)
    (old_password : Option String) :
    Except UsersServiceError UserRecord × List UserRecord :=
  match get_by_id db user_id with
  | Except.error e => (Except.error e, db)
  | Except.ok existing_user =>
    match data.password with
    | some _ =>
      match old_password with
      | some old =>
        match UsersStorage.verify_user db existing_user.email old with
        | Except.error _ =>
          (Except.error (UsersServiceError.VerificationError workerCrashedMsg),
           db)
        | Except.ok verified =>
          if verified then
            match UsersStorage.update db existing_user.id data with
            | (some u, db2) => (Except.ok u, db2)
            | (none, db2) => (Except.error UsersServiceError.NotFound, db2)
          else
            (Except.error
              (UsersServiceError.WrongCredentials "Wrong old password"), db)
      | none =>
        (Except.error
          (UsersServiceError.WrongCredentials
            "To change password please provide old password"), db)
    | none =>
      match UsersStorage.update db existing_user.id data with
      | (some u, db2) => (Except.ok u, db2)
      | (none, db2) => (Except.error UsersServiceError.NotFound, db2)

end UsersService

/-! Helper lemmas about the PHC model. -/

theorem stripHead_append (p r : List Char) : stripHead p (p ++ r) = some r := by
  induction p with
  | nil => rfl
  | cons c cs ih => simp [stripHead, ih]

theorem splitSalt_append (s r : List Char) (h : '$' ∉ s) :
    splitSalt (s ++ '$' :: r) = some (s, r) := by
  induction s with
  | nil => rfl
  | cons c cs ih =>
    have hc : c ≠ '$' := fun hc => h (hc ▸ List.mem_cons_self c cs)
    have hcs : '$' ∉ cs := fun hm => h (List.mem_cons_of_mem _ hm)
    simp [splitSalt, hc, ih hcs]

theorem parsePhc_hash (salt : List Char) (pw : String) (h : '$' ∉ salt) :
    parsePhc (hash_password salt pw) = some (salt, pw.data) := by
  unfold parsePhc hash_password
  rw [List.append_assoc, stripHead_append]
  exact splitSalt_append salt pw.data h

theorem string_data_inj {a b : String} (h : a.data = b.data) : a = b := by
  cases a; cases b; exact congrArg String.mk h

theorem verify_password_hash_self (salt : List Char) (pw : String)
    (h : '$' ∉ salt) :
    verify_password (hash_password salt pw) pw = Except.ok true := by
  unfold verify_password
  rw [parsePhc_hash salt pw h]
  simp

theorem verify_password_hash_ne (salt : List Char) (pw q : String)
    (h : '$' ∉ salt) (hne : q ≠ pw) :
    verify_password (hash_password salt pw) q = Except.ok false := by
  unfold verify_password
  rw [parsePhc_hash salt pw h]
  simp only [Except.ok.injEq]
  rw [decide_eq_false_iff_not]
  exact fun hd => hne (string_data_inj hd)

theorem hash_password_inj (s1 s2 : List Char) (p q : String)
    (h1 : '$' ∉ s1) (h2 : '$' ∉ s2)
    (heq : hash_password s1 p = hash_password s2 q) : s1 = s2 ∧ p = q := by
  have ha := parsePhc_hash s1 p h1
  have hb := parsePhc_hash s2 q h2
  rw [heq, hb] at ha
  simp only [Option.some.injEq, Prod.mk.injEq] at ha
  exact ⟨ha.1.symm, (string_data_inj ha.2).symm⟩

/-! Helper lemmas about case folding. -/

theorem char_toNat_ofNat_valid {n : Nat} (h : Nat.isValidChar n) :
    (Char.ofNat n).toNat = n := by
  unfold Char.ofNat
  rw [dif_pos h]
  rfl

theorem lowercaseChar_idem (c : Char) :
    lowercaseChar (lowercaseChar c) = lowercaseChar c := by
  unfold lowercaseChar
  by_cases h : 65 ≤ c.toNat ∧ c.toNat ≤ 90
  · rw [if_pos h]
    have hv : Nat.isValidChar (c.toNat + 32) := Or.inl (by omega)
    rw [if_neg]
    rw [char_toNat_ofNat_valid hv]
    omega
  · rw [if_neg h, if_neg h]

theorem toLowercase_idem (s : String) :
    toLowercase (toLowercase s) = toLowercase s := by
  unfold toLowercase
  simp only [List.map_map]
  congr 1
  exact List.map_congr_left fun c _ => lowercaseChar_idem c

/-- C4: password validation succeeds exactly when the length is 8–64
characters and the four character classes are each present; every violated
character-class rule is named in the collected error messages, not only the
first. -/
theorem password_validation_correct (p : String) :
    (CreateUser.password_field_ok p = true ↔ passwordPolicySpec p) ∧
    (validate_password p = Except.ok () ↔
      (∃ c ∈ p.data, c.isUpper = true) ∧ (∃ c ∈ p.data, c.isLower = true) ∧
      (∃ c ∈ p.data, c.isDigit = true) ∧ (∃ c ∈ p.data, c ∈ specialChars)) ∧
    ("uppercase letter required" ∈ passwordViolations p ↔
      ¬ ∃ c ∈ p.data, c.isUpper = true) ∧
    ("lowercase letter required" ∈ passwordViolations p ↔
      ¬ ∃ c ∈ p.data, c.isLower = true) ∧
    ("digit required" ∈ passwordViolations p ↔
      ¬ ∃ c ∈ p.data, c.isDigit = true) ∧
    ("special character required" ∈ passwordViolations p ↔
      ¬ ∃ c ∈ p.data, c ∈ specialChars) := by
  have hco : ∀ c : Char, specialChars.contains c = true ↔ c ∈ specialChars :=
    fun c => List.elem_iff
  by_cases h1 : p.data.any (fun c => c.isUpper) = true <;>
  by_cases h2 : p.data.any (fun c => c.isLower) = true <;>
  by_cases h3 : p.data.any (fun c => c.isDigit) = true <;>
  by_cases h4 : p.data.any (fun c => specialChars.contains c) = true <;>
  · rw [List.any_eq_true] at h1 h2 h3 h4
    simp only [List.any_eq_true, hco] at h1 h2 h3 h4
    simp [CreateUser.password_field_ok, passwordPolicySpec, passwordViolations,
      validate_password, List.any_eq_true, hco, h1, h2, h3, h4,
      Bool.and_eq_true, decide_eq_true_eq, and_assoc]

/-- C5 (counterexample): at page `2147483649` and per_page `2` the offset
handed to storage is not the mathematical product `(page - 1) * per_page`
(the u32 multiplication wraps to 0). -/
theorem list_offset_claim_counterexample :
    (UsersService.listFilter 2147483649 2 none).offset ≠
      some (((2147483649 - 1) * 2 : Nat) : Int) := by decide

/-- C5 (amended): pagination is 1-based: page 0 is rejected with an error for
every storage backend, and for every page ≥ 1 whose offset product fits in a
u32 the storage query is issued with `limit = per_page` and
`offset = (page - 1) * per_page`. -/
theorem list_pagination_one_based
    (st : UserSearch → Except String UserListResponse)
    (page per_page : Nat) (q : Option String)
    (h1 : 1 ≤ page) (h2 : (page - 1) * per_page < UsersService.u32Size) :
    (∀ st2 pp2 q2, UsersService.list st2 0 pp2 q2 =
        Except.error (UsersServiceError.WrongCredentials
          "Page must be greater than zero")) ∧
    UsersService.listFilter page per_page q =
      { search := q, limit := some (Int.ofNat per_page),
        offset := some (Int.ofNat ((page - 1) * per_page)) } ∧
    UsersService.list st page per_page q =
      (match st (UsersService.listFilter page per_page q) with
       | Except.error e => Except.error (UsersServiceError.DatabaseError e)
       | Except.ok r =>
         if r.users.isEmpty then Except.error UsersServiceError.NotFound
         else Except.ok r) := by
  refine ⟨fun st2 pp2 q2 => rfl, ?_, ?_⟩
  · unfold UsersService.listFilter
    rw [Nat.mod_eq_of_lt h2]
  · unfold UsersService.list
    rw [if_neg (by omega)]

theorem list_pagination_one_based_witness :
    UsersService.listFilter 2 3 none =
      { search := none, limit := some (Int.ofNat 3),
        offset := some (Int.ofNat 3) } :=
  (list_pagination_one_based (fun _ => Except.ok ⟨[], 0, 3, 3⟩) 2 3 none
    (by decide) (by decide)).2.1

/-- C6: for every page ≥ 1, when storage answers the issued query with an
empty user list, the service returns `NotFound` instead of an empty valid
page. -/
theorem list_empty_page_not_found
    (st : UserSearch → Except String UserListResponse)
    (page per_page : Nat) (q : Option String) (r : UserListResponse)
    (h1 : 1 ≤ page)
    (hst : st (UsersService.listFilter page per_page q) = Except.ok r)
    (hempty : r.users = []) :
    UsersService.list st page per_page q =
      Except.error UsersServiceError.NotFound := by
  unfold UsersService.list
  rw [if_neg (by omega : ¬ page = 0), hst]
  simp [hempty]

theorem list_empty_page_not_found_witness :
    UsersService.list (fun _ => Except.ok ⟨[], 0, 2, 0⟩) 1 2 none =
      Except.error UsersServiceError.NotFound :=
  list_empty_page_not_found (fun _ => Except.ok ⟨[], 0, 2, 0⟩) 1 2 none
    ⟨[], 0, 2, 0⟩ (by decide) rfl rfl

/-- C10: the pagination offset is computed in 32-bit unsigned arithmetic, so
whenever the mathematical product `(page - 1) * per_page` is at least `2^32`
the offset handed to storage is the product reduced modulo `2^32`, which
differs from the true product. -/
theorem list_offset_wraps_mod_u32
    (page per_page : Nat) (q : Option String)
    (_hpg : page < UsersService.u32Size) (_hpp : per_page < UsersService.u32Size)
    (_h1 : 1 ≤ page) (hbig : UsersService.u32Size ≤ (page - 1) * per_page) :
    (UsersService.listFilter page per_page q).offset =
      some (Int.ofNat (((page - 1) * per_page) % UsersService.u32Size)) ∧
    ((page - 1) * per_page) % UsersService.u32Size ≠ (page - 1) * per_page := by
  refine ⟨rfl, ?_⟩
  have hpos : 0 < UsersService.u32Size := by
    unfold UsersService.u32Size
    norm_num
  have hlt := Nat.mod_lt ((page - 1) * per_page) hpos
  omega

theorem list_offset_wraps_mod_u32_witness :
    (UsersService.listFilter 1073741825 4 none).offset =
      some (Int.ofNat ((1073741824 * 4) % UsersService.u32Size)) ∧
    ((1073741825 - 1) * 4) % UsersService.u32Size ≠ (1073741825 - 1) * 4 := by
  have h := list_offset_wraps_mod_u32 1073741825 4 none
    (by decide) (by decide) (by decide) (by decide)
  exact ⟨h.1, h.2⟩


/-- C7: `create` stores the email lowercased and `get_by_email` lowercases its
argument, so a user created under any case variant of an email is found by a
lookup under any other case variant, and a lookup behaves identically on an
email and on its lowercased form. -/
theorem email_lookup_case_insensitive
    (db : List UserRecord) (newId ts : Nat) (salt : List Char)
    (data : CreateUser) (e2 : String)
    (hcase : toLowercase data.email = toLowercase e2)
    (hfresh : ∀ r ∈ db, r.email ≠ toLowercase data.email) :
    UsersStorage.get_by_email (UsersStorage.create db newId ts salt data).2 e2 =
      some (UsersStorage.create db newId ts salt data).1 ∧
    (∀ db2 e, UsersStorage.get_by_email db2 e =
      UsersStorage.get_by_email db2 (toLowercase e)) := by
  constructor
  · unfold UsersStorage.create UsersStorage.get_by_email
    simp only [List.find?_append]
    have hnone : db.find? (fun r => r.email == toLowercase e2) = none := by
      rw [List.find?_eq_none]
      intro r hr
      simp only [beq_iff_eq, ← hcase]
      exact hfresh r hr
    rw [hnone]
    simp [List.find?_cons, ← hcase]
  · intro db2 e
    unfold UsersStorage.get_by_email
    rw [toLowercase_idem]

theorem email_lookup_case_insensitive_witness :
    UsersStorage.get_by_email
        (UsersStorage.create [] 1 0 "abc".data
          { username := "u", email := "Test@Example.COM",
            password := "Password123!", first_name := none, last_name := none,
            bio := none }).2 "test@example.com" =
      some (UsersStorage.create [] 1 0 "abc".data
        { username := "u", email := "Test@Example.COM",
          password := "Password123!", first_name := none, last_name := none,
          bio := none }).1 :=
  (email_lookup_case_insensitive [] 1 0 "abc".data
    { username := "u", email := "Test@Example.COM",
      password := "Password123!", first_name := none, last_name := none,
      bio := none } "test@example.com" (by decide) (by simp)).1

/-- C2: with a syntactically valid email, a sign-in against a missing user and
a sign-in whose password fails verification against the stored hash produce
the very same `WrongCredentials` error with the identical generic message. -/
theorem sign_in_failures_indistinguishable
    (emailOk : String → Bool) (db : List UserRecord) (c : SignInRequest)
    (hmail : emailOk c.email = true) :
    (UsersStorage.get_by_email db c.email = none →
      UsersService.sign_in emailOk db c =
        Except.error
          (UsersServiceError.WrongCredentials "Invalid email or password")) ∧
    (∀ r salt pw0, UsersStorage.get_by_email db c.email = some r →
      r.password = hash_password salt pw0 → '$' ∉ salt → pw0 ≠ c.password →
      UsersService.sign_in emailOk db c =
        Except.error
          (UsersServiceError.WrongCredentials "Invalid email or password")) := by
  constructor
  · intro hnone
    unfold UsersService.sign_in
    rw [if_pos hmail, hnone]
  · intro r salt pw0 hfound hpw hs hne
    have hv : UsersStorage.verify_user db c.email c.password =
        Except.ok false := by
      unfold UsersStorage.verify_user
      unfold UsersStorage.get_by_email at hfound
      rw [hfound]
      simp only [Option.map_some']
      rw [hpw, verify_password_hash_ne salt pw0 c.password hs (Ne.symm hne)]
    unfold UsersService.sign_in
    rw [if_pos hmail, hfound, hv]
    rfl

/-- C3: when the stored hash does not parse as a PHC string, sign-in surfaces
a `VerificationError`; when it parses but merely does not match, sign-in
returns the generic `WrongCredentials` error; the two error values are
distinct. -/
theorem hash_parse_failure_distinguished
    (emailOk : String → Bool) (db : List UserRecord) (c : SignInRequest)
    (r : UserRecord) (hmail : emailOk c.email = true)
    (hfound : UsersStorage.get_by_email db c.email = some r) :
    (parsePhc r.password = none →
      UsersService.sign_in emailOk db c =
        Except.error (UsersServiceError.VerificationError workerCrashedMsg)) ∧
    (∀ salt digest, parsePhc r.password = some (salt, digest) →
      c.password.data ≠ digest →
      UsersService.sign_in emailOk db c =
        Except.error
          (UsersServiceError.WrongCredentials "Invalid email or password")) ∧
    (∀ m1 m2, UsersServiceError.VerificationError m1 ≠
      UsersServiceError.WrongCredentials m2) := by
  refine ⟨?_, ?_, fun m1 m2 h => UsersServiceError.noConfusion h⟩
  · intro hparse
    have hv : UsersStorage.verify_user db c.email c.password =
        Except.error () := by
      unfold UsersStorage.verify_user
      unfold UsersStorage.get_by_email at hfound
      rw [hfound]
      simp only [Option.map_some']
      unfold verify_password
      rw [hparse]
    unfold UsersService.sign_in
    rw [if_pos hmail, hfound, hv]
  · intro salt digest hparse hne
    have hv : UsersStorage.verify_user db c.email c.password =
        Except.ok false := by
      unfold UsersStorage.verify_user
      unfold UsersStorage.get_by_email at hfound
      rw [hfound]
      simp only [Option.map_some']
      unfold verify_password
      rw [hparse]
      simp [hne]
    unfold UsersService.sign_in
    rw [if_pos hmail, hfound, hv]
    rfl


/-- A stored user whose password column holds a well-formed PHC hash of
`"Password123!"`; used as concrete input by several witnesses. -/
def demoUser : UserRecord :=
  { id := 1, username := "alice", email := "alice@example.com",
    password := hash_password "somesalt".data "Password123!",
    first_name := none, last_name := none, bio := none, created_at := 0 }

/-- A stored user whose password column holds a string that is not a PHC
hash. -/
def demoBadHashUser : UserRecord :=
  { id := 2, username := "bob", email := "bob@example.com",
    password := "invalid_hash".data,
    first_name := none, last_name := none, bio := none, created_at := 0 }

theorem sign_in_failures_indistinguishable_witness :
    UsersService.sign_in (fun _ => true) [demoUser]
        { email := "ghost@example.com", password := "Password123!" } =
      Except.error
        (UsersServiceError.WrongCredentials "Invalid email or password") ∧
    UsersService.sign_in (fun _ => true) [demoUser]
        { email := "alice@example.com", password := "WrongPass1!" } =
      Except.error
        (UsersServiceError.WrongCredentials "Invalid email or password") :=
  ⟨(sign_in_failures_indistinguishable (fun _ => true) [demoUser]
      { email := "ghost@example.com", password := "Password123!" } rfl).1
      (by decide),
   (sign_in_failures_indistinguishable (fun _ => true) [demoUser]
      { email := "alice@example.com", password := "WrongPass1!" } rfl).2
      demoUser "somesalt".data "Password123!" (by decide) rfl (by decide)
      (by decide)⟩

theorem hash_parse_failure_distinguished_witness :
    UsersService.sign_in (fun _ => true) [demoBadHashUser]
        { email := "bob@example.com", password := "Password123!" } =
      Except.error (UsersServiceError.VerificationError workerCrashedMsg) ∧
    UsersService.sign_in (fun _ => true) [demoUser]
        { email := "alice@example.com", password := "WrongPass2!" } =
      Except.error
        (UsersServiceError.WrongCredentials "Invalid email or password") :=
  ⟨(hash_parse_failure_distinguished (fun _ => true) [demoBadHashUser]
      { email := "bob@example.com", password := "Password123!" }
      demoBadHashUser rfl (by decide)).1 (by decide),
   (hash_parse_failure_distinguished (fun _ => true) [demoUser]
      { email := "alice@example.com", password := "WrongPass2!" } demoUser
      rfl (by decide)).2.1 "somesalt".data "Password123!".data (by decide)
      (by decide)⟩

/-- C8: hashing the same password under two distinct freshly generated salts
yields two different PHC strings; both verify against the original password,
and neither verifies against any other password. -/
theorem hash_random_salt_verify
    (p q : String) (s1 s2 : List Char)
    (h1 : '$' ∉ s1) (h2 : '$' ∉ s2) (hs : s1 ≠ s2) (hpq : p ≠ q) :
    hash_password s1 p ≠ hash_password s2 p ∧
    verify_password (hash_password s1 p) p = Except.ok true ∧
    verify_password (hash_password s2 p) p = Except.ok true ∧
    verify_password (hash_password s1 p) q = Except.ok false ∧
    verify_password (hash_password s2 p) q = Except.ok false :=
  ⟨fun h => hs (hash_password_inj s1 s2 p p h1 h2 h).1,
   verify_password_hash_self s1 p h1, verify_password_hash_self s2 p h2,
   verify_password_hash_ne s1 p q h1 (Ne.symm hpq),
   verify_password_hash_ne s2 p q h2 (Ne.symm hpq)⟩

theorem hash_random_salt_verify_witness :
    hash_password "ab".data "Password123!" ≠
      hash_password "cd".data "Password123!" ∧
    verify_password (hash_password "ab".data "Password123!") "Password123!" =
      Except.ok true ∧
    verify_password (hash_password "cd".data "Password123!") "Password123!" =
      Except.ok true ∧
    verify_password (hash_password "ab".data "Password123!") "x" =
      Except.ok false ∧
    verify_password (hash_password "cd".data "Password123!") "x" =
      Except.ok false :=
  hash_random_salt_verify "Password123!" "x" "ab".data "cd".data
    (by decide) (by decide) (by decide) (by decide)

/-- C9: when an update on an existing user carries a new password, a missing
old password is rejected with the table unchanged; an old password that fails
verification is rejected with the table unchanged; and any call that changed
the table had a successfully verified old password. -/
theorem update_password_requires_old
    (db : List UserRecord) (uid : Nat) (data : UpdateUser)
    (existing : UserRecord) (pw : String)
    (hpw : data.password = some pw)
    (hex : UsersService.get_by_id db uid = Except.ok existing) :
    (UsersService.update db uid data none =
      (Except.error (UsersServiceError.WrongCredentials
        "To change password please provide old password"), db)) ∧
    (∀ old, UsersStorage.verify_user db existing.email old = Except.ok false →
      UsersService.update db uid data (some old) =
        (Except.error
          (UsersServiceError.WrongCredentials "Wrong old password"), db)) ∧
    (∀ old res db2, UsersService.update db uid data (some old) = (res, db2) →
      db2 ≠ db →
      UsersStorage.verify_user db existing.email old = Except.ok true) := by
  refine ⟨?_, ?_, ?_⟩
  · simp only [UsersService.update, hex, hpw]
  · intro old hv
    simp only [UsersService.update, hex, hpw, hv]
    rfl
  · intro old res db2 hupd hne2
    simp only [UsersService.update, hex, hpw] at hupd
    cases hv : UsersStorage.verify_user db existing.email old with
    | error e =>
      rw [hv] at hupd
      simp only [] at hupd
      exact absurd (congrArg Prod.snd hupd.symm) hne2
    | ok b =>
      cases b with
      | false =>
        rw [hv] at hupd
        simp only [] at hupd
        exact absurd (congrArg Prod.snd hupd.symm) hne2
      | true => rfl

theorem update_password_requires_old_witness :
    UsersService.update [demoUser] 1
        { username := none, email := none, password := some "NewPassword123!",
          first_name := none, last_name := none, bio := none } none =
      (Except.error (UsersServiceError.WrongCredentials
        "To change password please provide old password"), [demoUser]) ∧
    UsersService.update [demoUser] 1
        { username := none, email := none, password := some "NewPassword123!",
          first_name := none, last_name := none, bio := none }
        (some "WrongOld1!") =
      (Except.error
        (UsersServiceError.WrongCredentials "Wrong old password"),
       [demoUser]) := by
  have h := update_password_requires_old [demoUser] 1
    { username := none, email := none, password := some "NewPassword123!",
      first_name := none, last_name := none, bio := none }
    demoUser "NewPassword123!" rfl rfl
  exact ⟨h.1, h.2.1 "WrongOld1!" rfl⟩

/-- C1 (code bug): `UsersStorage::create` stores a PHC hash produced by
`hash_password`, but `UsersStorage::update` binds the caller-supplied
password string itself into the password column: after updating user 1's
password to `"NewPassword123!"`, the stored column holds that plaintext,
which does not parse as a PHC string, so every later verification of the
stored value errors instead of succeeding. -/
theorem update_stores_plaintext_password :
    (UsersStorage.create [] 1 0 "abcdefgh".data
        { username := "alice", email := "alice@example.com",
          password := "Password123!", first_name := none, last_name := none,
          bio := none }).1.password =
      hash_password "abcdefgh".data "Password123!" ∧
    parsePhc (hash_password "abcdefgh".data "Password123!") ≠ none ∧
    ((UsersStorage.update [demoUser] 1
        { username := none, email := none, password := some "NewPassword123!",
          first_name := none, last_name := none, bio := none }).2.map
      (fun r => r.password)) = ["NewPassword123!".data] ∧
    parsePhc "NewPassword123!".data = none ∧
    verify_password "NewPassword123!".data "NewPassword123!" =
      Except.error () :=
  ⟨rfl, by decide, by decide, by decide, rfl⟩


end Culturelist
